import Mathlib

/-!
Verification of the AFRO-storm hazard pipeline specification against its
Python source.  Each component the claims touch is shallowly embedded:
machine floats become rationals (with explicit rounding where the source
calls round), `np.sqrt` becomes `Real.sqrt`, SQLite tables become lists of
rows, and wall-clock / hash values become explicit inputs of the state
transitions.  Definitions are translated from the source files; the
definitions whose names start with `claim` transcribe the wording of the
specification claims, to be compared with the source-derived ones.
-/

namespace Monitor

/-- CONFIG["detection"]["min_pressure_hpa"] in realtime_monitor.py. -/
def min_pressure_hpa : ℚ := 1005

/-- CONFIG["detection"]["min_wind_ms"] in realtime_monitor.py. -/
def min_wind_ms : ℚ := 17

/-- CONFIG["region"] bounds (African Cyclone Basin) in realtime_monitor.py. -/
def region_north : ℚ := 0

def region_south : ℚ := -35

def region_west : ℚ := 20

def region_east : ℚ := 80

/-- CycloneDetector._calculate_confidence: p_factor is max(0, (1010-p)/30)
(no individual cap at 1), w_factor is min(1, w/33), and only the average is
capped at 1. -/
def calculate_confidence (pressure wind : ℚ) : ℚ :=
  let p_factor := max 0 ((1010 - pressure) / 30)
  let w_factor := min 1 (wind / 33)
  min 1 ((p_factor + w_factor) / 2)

/-- The threshold chain of CycloneDetector._get_threat_level, on wind already
converted to knots. -/
def get_threat_level_kt (wind_kt : ℚ) : String :=
  if 137 ≤ wind_kt then "CAT5"
  else if 113 ≤ wind_kt then "CAT4"
  else if 96 ≤ wind_kt then "CAT3"
  else if 83 ≤ wind_kt then "CAT2"
  else if 64 ≤ wind_kt then "CAT1"
  else if 34 ≤ wind_kt then "TS"
  else "TD"

/-- CycloneDetector._get_threat_level: wind_kt = wind_ms * 1.944. -/
def get_threat_level (wind_ms : ℚ) : String :=
  get_threat_level_kt (wind_ms * 1.944)

/-- One detection dict as appended by CycloneDetector.detect_from_era5. -/
structure EmittedDetection where
  lat : ℚ
  lon : ℚ
  min_pressure_hpa : ℚ
  max_wind_ms : ℚ
  max_wind_kt : ℚ
  confidence : ℚ
  source : String
  threat_level : String
  deriving DecidableEq, Inhabited

/-- The per-timestep emission logic of detect_from_era5, given the grid
minimum pressure (hPa) at cell (lat, lon) and the grid maximum 10-m wind
(m/s): emit iff pressure < min_pressure_hpa, the minimum-pressure cell lies
in the configured basin, and wind ≥ min_wind_ms. -/
def detect_at (lat lon pressure wind : ℚ) : Option EmittedDetection :=
  if pressure < min_pressure_hpa ∧
      (region_south ≤ lat ∧ lat ≤ region_north) ∧
      (region_west ≤ lon ∧ lon ≤ region_east) ∧
      min_wind_ms ≤ wind then
    some { lat := lat, lon := lon, min_pressure_hpa := pressure,
           max_wind_ms := wind, max_wind_kt := wind * 1.944,
           confidence := calculate_confidence pressure wind,
           source := "era5", threat_level := get_threat_level wind }
  else
    none

end Monitor

/-- clip(x, 0, 1) as written in the spec's confidence formula. -/
def clip01 (x : ℚ) : ℚ := min 1 (max 0 x)

/-- The confidence formula exactly as claim C3 states it:
clip((1010 − pressure)/30, 0, 1) × 0.5 + clip(wind/33, 0, 1) × 0.5. -/
def claimC3_confidence (p w : ℚ) : ℚ :=
  clip01 ((1010 - p) / 30) * (1 / 2) + clip01 (w / 33) * (1 / 2)

/-- The Saffir-Simpson table exactly as claim C4 states it
(≥137 CAT5, 113–136 CAT4, 96–112 CAT3, 83–95 CAT2, 64–82 CAT1, 34–63 TS,
below 34 TD), read as half-open bands over real-valued knots. -/
def claimC4_saffir (kt : ℚ) : String :=
  if 137 ≤ kt then "CAT5"
  else if 113 ≤ kt ∧ kt < 137 then "CAT4"
  else if 96 ≤ kt ∧ kt < 113 then "CAT3"
  else if 83 ≤ kt ∧ kt < 96 then "CAT2"
  else if 64 ≤ kt ∧ kt < 83 then "CAT1"
  else if 34 ≤ kt ∧ kt < 64 then "TS"
  else "TD"

namespace WHO

/-- Python round(q, 3): round to 3 decimal places.  Python uses
round-half-even on binary floats; the two agree away from exact half-way
points, and every concrete value used in the theorems below is away from
them. -/
def round3 (q : ℚ) : ℚ := ((Int.floor (q * 1000 + 1 / 2) : ℤ) : ℚ) / 1000

/-- Python round(q, 1), used for the stored distance_km field. -/
def round1 (q : ℚ) : ℚ := ((Int.floor (q * 10 + 1 / 2) : ℤ) : ℚ) / 10

/-- severity_scores = dict(low 0.2, medium 0.5, high 0.8) with .get default
0.5, from WHOAFROFetcher.calculate_convergence_risk. -/
def severity_scores (severity : String) : ℚ :=
  if severity = "low" then 0.2
  else if severity = "medium" then 0.5
  else if severity = "high" then 0.8
  else 0.5

/-- WHOAFROFetcher.calculate_convergence_risk: accumulates the four weighted
factors and returns round(risk, 3). -/
def calculate_convergence_risk (severity : String) (cases track_probability distance_km : ℚ) : ℚ :=
  let distance_factor := max 0 (1 - distance_km / 500)
  let risk := distance_factor * 0.3 + severity_scores severity * 0.3
    + track_probability * 0.2 + min 1 (cases / 200) * 0.2
  round3 risk

/-- An outbreak record as consumed by check_convergence (coordinates are
stored [lon, lat] and reversed to (lat, lon) before the distance call). -/
structure OutbreakRec where
  disease : String
  location : String
  severity : String
  cases : ℚ
  lon : ℚ
  lat : ℚ
  deriving DecidableEq, Inhabited

/-- A cyclone record as consumed by check_convergence. -/
structure CycloneRec where
  lat : ℚ
  lon : ℚ
  track_probability : ℚ
  threat_level : String
  deriving DecidableEq, Inhabited

/-- The convergence dict built by check_convergence for one pair (the
nested outbreak/cyclone sub-dicts are flattened into fields). -/
structure ConvergenceRec where
  disease : String
  location : String
  severity : String
  cases : ℚ
  cyc_lat : ℚ
  cyc_lon : ℚ
  track_probability : ℚ
  threat_level : String
  distance_km : ℚ
  risk_score : ℚ
  alert_priority : String
  deriving DecidableEq, Inhabited

/-- The record check_convergence appends when distance < threshold:
distance_km is round(distance, 1), risk_score comes from
calculate_convergence_risk on the unrounded distance, and alert_priority is
HIGH iff distance < 200. -/
def convergence_for (distance : ℚ) (o : OutbreakRec) (c : CycloneRec) : ConvergenceRec :=
  { disease := o.disease, location := o.location, severity := o.severity,
    cases := o.cases, cyc_lat := c.lat, cyc_lon := c.lon,
    track_probability := c.track_probability, threat_level := c.threat_level,
    distance_km := round1 distance,
    risk_score := calculate_convergence_risk o.severity o.cases c.track_probability distance,
    alert_priority := if distance < 200 then "HIGH" else "MEDIUM" }

/-- WHOAFROFetcher.check_convergence.  The pairwise distance is delegated by
the source to the external geopy geodesic; it is a parameter here. -/
def check_convergence (dist : OutbreakRec → CycloneRec → ℚ)
    (outbreaks : List OutbreakRec) (cyclones : List CycloneRec)
    (distance_threshold_km : ℚ) : List ConvergenceRec :=
  outbreaks.flatMap fun o =>
    (cyclones.filter fun c => dist o c < distance_threshold_km).map fun c =>
      convergence_for (dist o c) o c

end WHO

/-- The severity_score table exactly as claim C2 states it
(low 0.2, medium 0.5, high 0.8). -/
def claimC2_severity (severity : String) : ℚ :=
  if severity = "low" then 0.2
  else if severity = "medium" then 0.5
  else if severity = "high" then 0.8
  else 0.5

/-- The risk formula exactly as claim C2 states it:
0.3 × (1 − distance/500) + 0.3 × severity_score +
0.2 × track_probability + 0.2 × min(cases/200, 1) — with no rounding. -/
def claimC2_risk (severity : String) (cases track_probability distance_km : ℚ) : ℚ :=
  0.3 * (1 - distance_km / 500) + 0.3 * claimC2_severity severity
    + 0.2 * track_probability + 0.2 * min (cases / 200) 1

namespace Landslide

/-- CONFIG["thresholds"] slope values (degrees) in landslide_risk.py. -/
def slope_low : ℚ := 10

def slope_medium : ℚ := 15

def slope_high : ℚ := 25

def slope_extreme : ℚ := 35

/-- CONFIG["thresholds"] rainfall values (mm/24h) in landslide_risk.py. -/
def rainfall_low : ℚ := 50

def rainfall_medium : ℚ := 100

def rainfall_high : ℚ := 200

def rainfall_extreme : ℚ := 400

/-- The slope-factor chain of LandslideRiskCalculator._calculate_cell_risk. -/
def slope_factor (slope : ℚ) : ℚ :=
  if slope_extreme ≤ slope then 1
  else if slope_high ≤ slope then 0.8
  else if slope_medium ≤ slope then 0.5
  else if slope_low ≤ slope then 0.2
  else 0

/-- The rainfall-factor chain of LandslideRiskCalculator._calculate_cell_risk. -/
def rain_factor (rainfall : ℚ) : ℚ :=
  if rainfall_extreme ≤ rainfall then 1
  else if rainfall_high ≤ rainfall then 0.8
  else if rainfall_medium ≤ rainfall then 0.5
  else if rainfall_low ≤ rainfall then 0.2
  else 0

/-- score = np.sqrt(slope_factor * rain_factor). -/
noncomputable def cell_score (slope rainfall : ℚ) : ℝ :=
  Real.sqrt ((slope_factor slope * rain_factor rainfall : ℚ) : ℝ)

/-- The level classification chain of _calculate_cell_risk, applied to the
unrounded score. -/
noncomputable def classify_score (score : ℝ) : String :=
  if 0.8 ≤ score then "EXTREME"
  else if 0.5 ≤ score then "HIGH"
  else if 0.3 ≤ score then "MEDIUM"
  else if 0.1 ≤ score then "LOW"
  else "MINIMAL"

/-- Python round(x, 3) on the real score (see WHO.round3 for the tie caveat). -/
noncomputable def round3R (x : ℝ) : ℝ := ((Int.floor (x * 1000 + 1 / 2) : ℤ) : ℝ) / 1000

/-- LandslideRiskCalculator._calculate_cell_risk, projected to the (level,
returned score) pair; the free-text reason string is elided.  The function
classifies on the exact score but returns round(score, 3). -/
noncomputable def calculate_cell_risk (slope rainfall : ℚ) : String × ℝ :=
  (classify_score (cell_score slope rainfall), round3R (cell_score slope rainfall))

end Landslide

/-- The slope-factor bands exactly as claim C6 states them:
{<10, 10–14, 15–24, 25–34, ≥35} degrees, read as half-open bands over
real-valued slopes. -/
def claimC6_slope_factor (slope : ℚ) : ℚ :=
  if slope < 10 then 0
  else if slope < 15 then 0.2
  else if slope < 25 then 0.5
  else if slope < 35 then 0.8
  else 1

/-- The rainfall-factor bands exactly as claim C6 states them:
{<50, 50–99, 100–199, 200–399, ≥400} mm. -/
def claimC6_rain_factor (rainfall : ℚ) : ℚ :=
  if rainfall < 50 then 0
  else if rainfall < 100 then 0.2
  else if rainfall < 200 then 0.5
  else if rainfall < 400 then 0.8
  else 1

/-- The level bands exactly as claim C6 states them: EXTREME for score ≥ 0.8,
HIGH for 0.5–0.79, MEDIUM for 0.3–0.49, LOW for 0.1–0.29, else MINIMAL. -/
noncomputable def claimC6_classify (score : ℝ) : String :=
  if 0.8 ≤ score then "EXTREME"
  else if 0.5 ≤ score ∧ score < 0.8 then "HIGH"
  else if 0.3 ≤ score ∧ score < 0.5 then "MEDIUM"
  else if 0.1 ≤ score ∧ score < 0.3 then "LOW"
  else "MINIMAL"

namespace Flood

/-- CONFIG["detection"]["min_area_km2"] in flood_detector.py. -/
def min_area_km2 : ℚ := 1

/-- One provider flood feature (SAR polygon or VIIRS point) with the
attributes detect_floods reads. -/
structure FloodFeature where
  area_km2 : ℚ
  severity : String
  source : String
  deriving DecidableEq, Inhabited

/-- The severity ladder of FloodDetector._get_max_severity. -/
def severity_index (s : String) : Nat :=
  if s = "minor" then 0
  else if s = "moderate" then 1
  else if s = "major" then 2
  else if s = "catastrophic" then 3
  else 0

/-- FloodDetector._get_max_severity: maximum severity over features,
defaulting to minor. -/
def get_max_severity (features : List FloodFeature) : String :=
  let max_idx := features.foldl (fun acc f => max acc (severity_index f.severity)) 0
  if max_idx = 0 then "minor"
  else if max_idx = 1 then "moderate"
  else if max_idx = 2 then "major"
  else "catastrophic"

/-- The aggregated result of FloodDetector.detect_floods (metadata summary
plus the feature list). -/
structure FloodResult where
  features : List FloodFeature
  sources : List String
  total_flooded_areas : Nat
  total_area_km2 : ℚ
  max_severity : String
  deriving DecidableEq, Inhabited

/-- FloodDetector.detect_floods aggregation: each provider's features are
appended when that provider call succeeds (its try/except otherwise skips
the source); no filtering of any kind is applied to the features.  The
summary counts and sums whatever was appended. -/
def detect_floods (sar_ok : Bool) (sar_features : List FloodFeature)
    (viirs_ok : Bool) (viirs_features : List FloodFeature) : FloodResult :=
  let fs := (if sar_ok then sar_features.map (fun f => { f with source := "Sentinel-1 SAR" }) else [])
    ++ (if viirs_ok then viirs_features.map (fun f => { f with source := "VIIRS NRT" }) else [])
  { features := fs,
    sources := (if sar_ok then ["Sentinel-1"] else []) ++ (if viirs_ok then ["VIIRS"] else []),
    total_flooded_areas := fs.length,
    total_area_km2 := (fs.map (fun f => f.area_km2)).sum,
    max_severity := get_max_severity fs }

end Flood

namespace Guerrilla

/-- INSTITUTIONAL_RECIPIENTS in guerrilla_alerts.py, projected to the display
country name and the ordered recipient email list. -/
def recipient_emails (country : String) : Option (String × List String) :=
  if country = "mozambique" then
    some ("Mozambique", ["geral@inam.gov.mz", "info@ingd.gov.mz", "wrmozambique@who.int"])
  else if country = "madagascar" then
    some ("Madagascar", ["direction@meteo.mg", "bngrc@bngrc.mg", "wrmadagascar@who.int"])
  else if country = "malawi" then
    some ("Malawi", ["info@dodma.gov.mw", "wrmalawi@who.int"])
  else if country = "zimbabwe" then
    some ("Zimbabwe", ["info@weather.co.zw", "dcp@civilprotection.gov.zw"])
  else if country = "regional" then
    some ("Regional", ["acmad@acmad.org", "info@icpac.net", "afrflashinfo@who.int"])
  else none

/-- The hazard dict fields send_hazard_alert and the builders read. -/
structure Hazard where
  type : String
  id : String
  lat : ℚ
  lon : ℚ
  threat_level : String
  severity : String
  deriving DecidableEq, Inhabited

/-- GuerrillaAlertSender._detect_countries bounding boxes. -/
def detect_countries (lat lon : ℚ) : List String :=
  (if -27 < lat ∧ lat < -10 ∧ 30 < lon ∧ lon < 42 then ["mozambique"] else []) ++
  (if -26 < lat ∧ lat < -12 ∧ 43 < lon ∧ lon < 51 then ["madagascar"] else []) ++
  (if -17 < lat ∧ lat < -9 ∧ 32 < lon ∧ lon < 36 then ["malawi"] else []) ++
  (if -23 < lat ∧ lat < -15 ∧ 25 < lon ∧ lon < 34 then ["zimbabwe"] else []) ++
  (if -30 < lat ∧ lat < 0 ∧ 30 < lon ∧ lon < 80 then ["regional"] else [])

/-- One sent_alerts row (schema in AlertDatabase._ensure_db). -/
structure SentAlertRow where
  alert_id : String
  hazard_type : String
  hazard_id : String
  country : String
  recipients : List String
  subject : String
  sent_at : ℚ
  tracking_pixel_id : String
  opened_at : Option ℚ
  validated : Bool
  deriving DecidableEq, Inhabited

/-- One tracking_opens row. -/
structure TrackingOpenRow where
  tracking_id : String
  opened_at : ℚ
  ip : Option String
  ua : Option String
  deriving DecidableEq, Inhabited

/-- The alerts.db state touched by the claims (validation_events elided). -/
structure AlertDB where
  sent_alerts : List SentAlertRow
  tracking_opens : List TrackingOpenRow
  deriving DecidableEq, Inhabited

/-- AlertDatabase.log_sent_alert: generates its OWN tracking id from the
fresh alert_id and the insertion-time utcnow (md5 truncated to 16 hex
digits, modelled by the parameter md5_16), and inserts the row with
opened_at NULL.  Timestamps are rational hours; the md5 input string is
alert_id ++ underscore ++ the timestamp rendered as text, as in the source
f-string. -/
def log_sent_alert (md5_16 : String → String) (alert_id : String) (now : ℚ)
    (db : AlertDB) (hazard_type hazard_id country : String)
    (recipients : List String) (subject : String) : AlertDB :=
  let tracking_id := md5_16 (alert_id ++ "_" ++ toString now)
  { db with sent_alerts := db.sent_alerts ++
      [{ alert_id := alert_id, hazard_type := hazard_type, hazard_id := hazard_id,
         country := country, recipients := recipients, subject := subject,
         sent_at := now, tracking_pixel_id := tracking_id,
         opened_at := none, validated := false }] }

/-- AlertDatabase.log_tracking_open: always inserts one tracking_opens row,
then updates opened_at only on sent_alerts rows whose tracking_pixel_id
matches AND whose opened_at is still NULL. -/
def log_tracking_open (db : AlertDB) (tracking_id : String) (now : ℚ)
    (ip ua : Option String) : AlertDB :=
  { tracking_opens := db.tracking_opens ++
      [{ tracking_id := tracking_id, opened_at := now, ip := ip, ua := ua }],
    sent_alerts := db.sent_alerts.map fun r =>
      if r.tracking_pixel_id = tracking_id ∧ r.opened_at = none then
        { r with opened_at := some now }
      else r }

/-- CONFIG["tracking"]["pixel_url"] default. -/
def pixel_url : String := "https://afrostorm.org/track"

/-- The 1×1 tracking-pixel reference embedded in the rendered HTML body by
AlertEmailBuilder.build_cyclone_alert. -/
def pixel_reference (tracking_id : String) : String :=
  pixel_url ++ "/" ++ tracking_id ++ ".png"

/-- Subject line of AlertEmailBuilder.build_cyclone_alert. -/
def build_cyclone_alert_subject (country threat_level : String) : String :=
  "[AFRO STORM] Tropical System Alert for " ++ country ++ " - " ++ threat_level

/-- Subject line of AlertEmailBuilder.build_flood_alert. -/
def build_flood_alert_subject (country severity : String) : String :=
  "[AFRO STORM] Flood Alert for " ++ country ++ " - " ++ severity.toUpper

/-- Environment of one send_hazard_alert invocation: the md5-16 digest
function and, per loop iteration, the uuid-derived fresh alert id and the
two utcnow readings (at tracking-id build time and inside log_sent_alert). -/
structure SendEnv where
  md5_16 : String → String
  fresh_ids : Nat → String
  t_email : Nat → ℚ
  t_insert : Nat → ℚ

/-- Observable effect of one country iteration: the email dispatched, with
the tracking token embedded in the body and the pixel reference. -/
structure SentEmail where
  country_key : String
  subject : String
  pixel_token : String
  pixel_ref : String
  recipients : List String
  deriving DecidableEq, Inhabited

/-- Result of send_hazard_alert: final database, returned alert ids, and
dispatched emails. -/
structure SendResult where
  db : AlertDB
  alert_ids : List String
  emails : List SentEmail

/-- The per-country loop of GuerrillaAlertSender.send_hazard_alert: skip
countries outside INSTITUTIONAL_RECIPIENTS; build the emailed tracking id as
md5_16 of hazard_id, country and utcnow; skip unknown hazard types (after
the token is built, before any insert); otherwise build the email and record
the alert via log_sent_alert — which generates its own, different, stored
tracking id.  No lookup of previously sent alerts happens anywhere. -/
def send_loop (env : SendEnv) (hazard : Hazard) :
    List String → Nat → AlertDB → SendResult
  | [], _, db => { db := db, alert_ids := [], emails := [] }
  | c :: rest, k, db =>
    match recipient_emails c with
    | none => send_loop env hazard rest (k + 1) db
    | some (display, emails) =>
      let tracking_id := env.md5_16 (hazard.id ++ "_" ++ c ++ "_" ++ toString (env.t_email k))
      if hazard.type = "cyclone" ∨ hazard.type = "flood" then
        let subject := if hazard.type = "cyclone" then
            build_cyclone_alert_subject display hazard.threat_level
          else build_flood_alert_subject display hazard.severity
        let alert_id := env.fresh_ids k
        let db' := log_sent_alert env.md5_16 alert_id (env.t_insert k) db
          hazard.type hazard.id c emails subject
        let r := send_loop env hazard rest (k + 1) db'
        { db := r.db, alert_ids := alert_id :: r.alert_ids,
          emails := { country_key := c, subject := subject,
                      pixel_token := tracking_id,
                      pixel_ref := pixel_reference tracking_id,
                      recipients := emails } :: r.emails }
      else
        send_loop env hazard rest (k + 1) db

/-- GuerrillaAlertSender.send_hazard_alert: auto-detect countries when none
are given, then run the per-country loop. -/
def send_hazard_alert (env : SendEnv) (db : AlertDB) (hazard : Hazard)
    (countries : List String) : SendResult :=
  let cs := if countries = [] then detect_countries hazard.lat hazard.lon else countries
  send_loop env hazard cs 0 db

/-- Number of sent_alerts rows for one (hazard_id, country) pair. -/
def count_pair (db : AlertDB) (hazard_id country : String) : Nat :=
  (db.sent_alerts.filter fun r =>
    decide (r.hazard_id = hazard_id ∧ r.country = country)).length

end Guerrilla

namespace Monitor

/-- CONFIG["alerts"]["high_probability_threshold"] in realtime_monitor.py. -/
def high_probability_threshold : ℚ := 0.7

/-- A detection dict as saved by the run loop (fields the cycle model
reads). -/
structure Detection where
  lat : ℚ
  lon : ℚ
  confidence : ℚ
  source : String
  threat_level : String
  deriving DecidableEq, Inhabited

/-- One monitor_runs row (schema in CycloneDatabase._ensure_db).  On the
error path run_once passes no counts or duration, so log_run's .get defaults
store 0 / NULL. -/
structure RunRow where
  run_time : ℚ
  data_source : String
  detections_count : Nat
  alerts_sent : Nat
  duration_seconds : Option ℚ
  status : String
  error : Option String
  deriving DecidableEq, Inhabited

/-- The cyclone_detections.db state touched by claim C7 (the alerts table is
kept as a count of saved alert rows). -/
structure MonitorDB where
  detections : List Detection
  alerts_logged : Nat
  monitor_runs : List RunRow
  deriving DecidableEq, Inhabited

/-- Environment of one run_once invocation.  The two fetchers catch their
own exceptions and return lists; the database writes in the
save-detection/check-and-alert loop are the raising steps the surrounding
try/except observes: persist_failure = some (k, msg) with k below the number
of detections means the loop raises message msg right before persisting the
k-th detection. -/
structure CycleEnv where
  run_time : ℚ
  duration : ℚ
  fnv3_detections : List Detection
  era5_detections : List Detection
  persist_failure : Option (Nat × String)

/-- All detections of the cycle, in processing order. -/
def cycle_detections (env : CycleEnv) : List Detection :=
  env.fnv3_detections ++ env.era5_detections

/-- data_sources list as joined by run_once. -/
def cycle_sources (env : CycleEnv) : String :=
  String.intercalate ","
    ((if env.fnv3_detections ≠ [] then ["fnv3"] else []) ++
     (if env.era5_detections ≠ [] then ["era5"] else []))

/-- Whether the cycle's try block raises. -/
def cycle_raises (env : CycleEnv) : Bool :=
  match env.persist_failure with
  | some (k, _) => decide (k < (cycle_detections env).length)
  | none => false

/-- AlertSystem.check_and_alert sends (logs) an alert iff confidence ≥ the
high-probability threshold; count over a processed prefix. -/
def alerts_for (dets : List Detection) : Nat :=
  (dets.filter fun d => decide (high_probability_threshold ≤ d.confidence)).length

/-- RealtimeCycloneMonitor.run_once: fetch, persist each detection and check
alerts, then log exactly one monitor_runs row — a success row with the
counts and duration, or, when the loop raises, an error row carrying the
message (counts defaulting to 0, duration NULL).  Either way log_run is
reached exactly once. -/
def run_once (env : CycleEnv) (db : MonitorDB) : MonitorDB :=
  let dets := cycle_detections env
  match env.persist_failure with
  | some (k, msg) =>
    if k < dets.length then
      let processed := dets.take k
      { detections := db.detections ++ processed,
        alerts_logged := db.alerts_logged + alerts_for processed,
        monitor_runs := db.monitor_runs ++
          [{ run_time := env.run_time, data_source := cycle_sources env,
             detections_count := 0, alerts_sent := 0, duration_seconds := none,
             status := "error", error := some msg }] }
    else
      { detections := db.detections ++ dets,
        alerts_logged := db.alerts_logged + alerts_for dets,
        monitor_runs := db.monitor_runs ++
          [{ run_time := env.run_time, data_source := cycle_sources env,
             detections_count := dets.length, alerts_sent := alerts_for dets,
             duration_seconds := some env.duration,
             status := "success", error := none }] }
  | none =>
    { detections := db.detections ++ dets,
      alerts_logged := db.alerts_logged + alerts_for dets,
      monitor_runs := db.monitor_runs ++
        [{ run_time := env.run_time, data_source := cycle_sources env,
           detections_count := dets.length, alerts_sent := alerts_for dets,
           duration_seconds := some env.duration,
           status := "success", error := none }] }

/-- The success row run_once logs when no step raises. -/
def success_row (env : CycleEnv) : RunRow :=
  { run_time := env.run_time, data_source := cycle_sources env,
    detections_count := (cycle_detections env).length,
    alerts_sent := alerts_for (cycle_detections env),
    duration_seconds := some env.duration, status := "success", error := none }

/-- The error row run_once logs when the cycle raises msg. -/
def error_row (env : CycleEnv) (msg : String) : RunRow :=
  { run_time := env.run_time, data_source := cycle_sources env,
    detections_count := 0, alerts_sent := 0, duration_seconds := none,
    status := "error", error := some msg }

end Monitor

/-- The test hazard of the guerrilla_alerts CLI (--test). -/
def test_hazard : Guerrilla.Hazard :=
  { type := "cyclone", id := "test_001", lat := -19.85, lon := 34.84,
    threat_level := "CAT2", severity := "moderate" }

/-- Concrete send environment for runs at time t: the md5-16 digest is
replaced by the identity stand-in (the digest enters the theorems only
through its values on a few distinct short inputs), fresh alert ids are
tagged with the run label. -/
def test_env_at (t : ℚ) (tag : String) : Guerrilla.SendEnv :=
  { md5_16 := fun s => s, fresh_ids := fun k => tag ++ toString k,
    t_email := fun _ => t, t_insert := fun _ => t }

/-- An empty alerts.db. -/
def empty_db : Guerrilla.AlertDB := { sent_alerts := [], tracking_opens := [] }

/-- The source threat classifier agrees with the claim's Saffir-Simpson band
table for every knots value. -/
theorem threat_table_eq_saffir (kt : ℚ) :
    Monitor.get_threat_level_kt kt = claimC4_saffir kt := by
  unfold Monitor.get_threat_level_kt claimC4_saffir
  rcases le_or_lt 137 kt with h1 | h1
  · rw [if_pos h1, if_pos h1]
  · rw [if_neg (not_le.mpr h1), if_neg (not_le.mpr h1)]
    rcases le_or_lt 113 kt with h2 | h2
    · have hp : 113 ≤ kt ∧ kt < 137 := ⟨h2, h1⟩
      rw [if_pos h2, if_pos hp]
    · have hn : ¬(113 ≤ kt ∧ kt < 137) := fun hc => absurd hc.1 (not_le.mpr h2)
      rw [if_neg (not_le.mpr h2), if_neg hn]
      rcases le_or_lt 96 kt with h3 | h3
      · have hp : 96 ≤ kt ∧ kt < 113 := ⟨h3, h2⟩
        rw [if_pos h3, if_pos hp]
      · have hn3 : ¬(96 ≤ kt ∧ kt < 113) := fun hc => absurd hc.1 (not_le.mpr h3)
        rw [if_neg (not_le.mpr h3), if_neg hn3]
        rcases le_or_lt 83 kt with h4 | h4
        · have hp : 83 ≤ kt ∧ kt < 96 := ⟨h4, h3⟩
          rw [if_pos h4, if_pos hp]
        · have hn4 : ¬(83 ≤ kt ∧ kt < 96) := fun hc => absurd hc.1 (not_le.mpr h4)
          rw [if_neg (not_le.mpr h4), if_neg hn4]
          rcases le_or_lt 64 kt with h5 | h5
          · have hp : 64 ≤ kt ∧ kt < 83 := ⟨h5, h4⟩
            rw [if_pos h5, if_pos hp]
          · have hn5 : ¬(64 ≤ kt ∧ kt < 83) := fun hc => absurd hc.1 (not_le.mpr h5)
            rw [if_neg (not_le.mpr h5), if_neg hn5]
            rcases le_or_lt 34 kt with h6 | h6
            · have hp : 34 ≤ kt ∧ kt < 64 := ⟨h6, h5⟩
              rw [if_pos h6, if_pos hp]
            · have hn6 : ¬(34 ≤ kt ∧ kt < 64) := fun hc => absurd hc.1 (not_le.mpr h6)
              rw [if_neg (not_le.mpr h6), if_neg hn6]

/-- C3, counterexample: pressure 950 hPa and wind 17 m/s pass the detection
thresholds (950 < 1005, 17 ≥ 17) and are emitted with confidence
calculate_confidence 950 17 = 1, while the claimed formula
clip((1010−p)/30,0,1)×0.5 + clip(w/33,0,1)×0.5 gives 25/33 ≈ 0.758: the
source does not clip the pressure factor at 1 individually, it only caps
the final average. -/
theorem claimC3_counterexample :
    (Monitor.detect_at (-19) 40 950 17).map Monitor.EmittedDetection.confidence
      = some (Monitor.calculate_confidence 950 17) ∧
    Monitor.calculate_confidence 950 17 ≠ claimC3_confidence 950 17 := by
  constructor
  · unfold Monitor.detect_at
    rw [if_pos (by norm_num [Monitor.min_pressure_hpa, Monitor.min_wind_ms,
      Monitor.region_south, Monitor.region_north, Monitor.region_west, Monitor.region_east])]
    rfl
  · norm_num [Monitor.calculate_confidence, claimC3_confidence, clip01, min_def, max_def]

/-- C3 amended: for every emitted gridded detection the confidence equals
min(1, (max(0,(1010−p)/30) + min(1,w/33))/2) — the pressure factor is not
individually clipped at 1, only the average is capped — and this agrees
with the claimed clip formula exactly when pressure ≥ 980 hPa. -/
theorem claimC3_amended (lat lon p w : ℚ) (d : Monitor.EmittedDetection)
    (hd : Monitor.detect_at lat lon p w = some d) :
    d.confidence = min 1 ((max 0 ((1010 - p) / 30) + min 1 (w / 33)) / 2) ∧
    (980 ≤ p → d.confidence = claimC3_confidence p w) := by
  unfold Monitor.detect_at at hd
  split_ifs at hd with h
  obtain ⟨hp, -, -, hw⟩ := h
  simp only [Option.some.injEq] at hd
  subst hd
  refine ⟨rfl, fun h980 => ?_⟩
  have hp' : p < 1005 := by
    simpa [Monitor.min_pressure_hpa] using hp
  have hw' : (17 : ℚ) ≤ w := by
    simpa [Monitor.min_wind_ms] using hw
  show Monitor.calculate_confidence p w = claimC3_confidence p w
  unfold Monitor.calculate_confidence claimC3_confidence clip01
  have h0 : (0 : ℚ) ≤ (1010 - p) / 30 := by linarith
  have h1 : (1010 - p) / 30 ≤ 1 := by linarith
  have hw0 : (0 : ℚ) ≤ w / 33 := by linarith
  rw [max_eq_right h0, max_eq_right hw0, min_eq_right h1]
  have hm : min (1 : ℚ) (w / 33) ≤ 1 := min_le_left _ _
  rw [min_eq_right (show ((1010 - p) / 30 + min 1 (w / 33)) / 2 ≤ 1 by linarith)]
  ring

/-- C3 amended, witness at pressure 1000 hPa, wind 20 m/s (inside the
agreement region). -/
theorem claimC3_amended_witness :
    Monitor.calculate_confidence 1000 20 = claimC3_confidence 1000 20 := by
  have hd : Monitor.detect_at (-19) 40 1000 20
      = some { lat := -19, lon := 40, min_pressure_hpa := 1000, max_wind_ms := 20,
               max_wind_kt := 20 * 1.944,
               confidence := Monitor.calculate_confidence 1000 20,
               source := "era5", threat_level := Monitor.get_threat_level 20 } := by
    unfold Monitor.detect_at
    rw [if_pos (by norm_num [Monitor.min_pressure_hpa, Monitor.min_wind_ms,
      Monitor.region_south, Monitor.region_north, Monitor.region_west, Monitor.region_east])]
  exact (claimC3_amended (-19) 40 1000 20 _ hd).2 (by norm_num)

/-- C4, counterexample: a passing detection with max wind 18 m/s stores
max_wind_kt = 18 × 1.944 = 34.992, not 18 × 1.9438 = 34.9884 as the claim
states: the source converts with factor 1.944, not 1.9438. -/
theorem claimC4_counterexample :
    (Monitor.detect_at (-19) 40 1000 18).map Monitor.EmittedDetection.max_wind_kt
      = some (18 * (1.944 : ℚ)) ∧
    18 * (1.944 : ℚ) ≠ 18 * (1.9438 : ℚ) := by
  constructor
  · unfold Monitor.detect_at
    rw [if_pos (by norm_num [Monitor.min_pressure_hpa, Monitor.min_wind_ms,
      Monitor.region_south, Monitor.region_north, Monitor.region_west, Monitor.region_east])]
    rfl
  · norm_num

/-- C4 amended: every emitted cyclone stores max_wind_kt = max_wind_ms ×
1.944 (the source's factor, not the claimed 1.9438), its threat_level is the
Saffir-Simpson class of that stored value per the §4.3.1 table, and at the
boundary 64.0 kt classifies CAT1 while 63.9 kt classifies TS. -/
theorem claimC4_amended (lat lon p w : ℚ) (d : Monitor.EmittedDetection)
    (hd : Monitor.detect_at lat lon p w = some d) :
    d.max_wind_kt = w * 1.944 ∧
    d.threat_level = claimC4_saffir d.max_wind_kt ∧
    claimC4_saffir 64 = "CAT1" ∧ claimC4_saffir (63.9 : ℚ) = "TS" := by
  unfold Monitor.detect_at at hd
  split_ifs at hd
  simp only [Option.some.injEq] at hd
  subst hd
  refine ⟨rfl, ?_, by norm_num [claimC4_saffir], by norm_num [claimC4_saffir]⟩
  show Monitor.get_threat_level w = claimC4_saffir (w * 1.944)
  unfold Monitor.get_threat_level
  exact threat_table_eq_saffir (w * 1.944)

/-- C4 amended, witness at max wind 18 m/s. -/
theorem claimC4_amended_witness :
    18 * (1.944 : ℚ) = 18 * (1.944 : ℚ) ∧
    Monitor.get_threat_level 18 = claimC4_saffir (18 * (1.944 : ℚ)) := by
  have hd : Monitor.detect_at (-19) 40 1000 18
      = some { lat := -19, lon := 40, min_pressure_hpa := 1000, max_wind_ms := 18,
               max_wind_kt := 18 * 1.944,
               confidence := Monitor.calculate_confidence 1000 18,
               source := "era5", threat_level := Monitor.get_threat_level 18 } := by
    unfold Monitor.detect_at
    rw [if_pos (by norm_num [Monitor.min_pressure_hpa, Monitor.min_wind_ms,
      Monitor.region_south, Monitor.region_north, Monitor.region_west, Monitor.region_east])]
  have h := claimC4_amended (-19) 40 1000 18 _ hd
  exact ⟨h.1, h.2.1⟩

/-- C2, counterexample: for a pair at distance 1 km with a low-severity,
0-case outbreak and a 0-probability cyclone, the emitted risk_score is
round(0.3594, 3) = 0.359, while the claimed unrounded formula gives 0.3594:
the source rounds risk_score to 3 decimal places. -/
theorem claimC2_counterexample :
    (WHO.check_convergence (fun _ _ => 1)
        [{ disease := "Cholera", location := "Nairobi", severity := "low",
           cases := 0, lon := 36, lat := -1 }]
        [{ lat := -19, lon := 47, track_probability := 0, threat_level := "TS" }]
        500).map WHO.ConvergenceRec.risk_score
      = [WHO.calculate_convergence_risk "low" 0 0 1] ∧
    WHO.calculate_convergence_risk "low" 0 0 1 ≠ claimC2_risk "low" 0 0 1 ∧
    (1 : ℚ) < 500 := by
  refine ⟨?_, ?_, by norm_num⟩
  · simp [WHO.check_convergence, WHO.convergence_for]
  · norm_num [WHO.calculate_convergence_risk, WHO.severity_scores, WHO.round3,
      claimC2_risk, claimC2_severity, min_def, max_def]

/-- C2 amended: for every (cyclone, outbreak) pair whose distance is below
the 500 km threshold, the emitted convergence has risk_score equal to the
claimed formula ROUNDED to 3 decimal places, and alert_priority HIGH iff
distance < 200 km (so 200.0 yields MEDIUM and 199.9 yields HIGH, as the
claim states). -/
theorem claimC2_amended (dist : WHO.OutbreakRec → WHO.CycloneRec → ℚ)
    (o : WHO.OutbreakRec) (c : WHO.CycloneRec) (h : dist o c < 500) :
    WHO.check_convergence dist [o] [c] 500 = [WHO.convergence_for (dist o c) o c] ∧
    (WHO.convergence_for (dist o c) o c).risk_score
      = WHO.round3 (claimC2_risk o.severity o.cases c.track_probability (dist o c)) ∧
    (WHO.convergence_for (dist o c) o c).alert_priority
      = (if dist o c < 200 then "HIGH" else "MEDIUM") ∧
    (WHO.convergence_for 200 o c).alert_priority = "MEDIUM" ∧
    (WHO.convergence_for (199.9 : ℚ) o c).alert_priority = "HIGH" := by
  refine ⟨?_, ?_, rfl, ?_, ?_⟩
  · simp [WHO.check_convergence, h]
  · simp only [WHO.convergence_for, WHO.calculate_convergence_risk, claimC2_risk]
    congr 1
    have hmax : max (0 : ℚ) (1 - dist o c / 500) = 1 - dist o c / 500 :=
      max_eq_right (by linarith)
    rw [hmax]
    have hsev : WHO.severity_scores o.severity = claimC2_severity o.severity := rfl
    rw [hsev, min_comm (o.cases / 200) 1]
    ring
  · simp only [WHO.convergence_for]
    norm_num
  · simp only [WHO.convergence_for]
    norm_num

/-- C2 amended, witness on the S2-style scenario (high-severity cholera
outbreak with 156 cases, cyclone with track probability 1) at 100 km. -/
theorem claimC2_amended_witness :
    WHO.check_convergence (fun _ _ => 100)
        [{ disease := "Cholera", location := "Antananarivo", severity := "high",
           cases := 156, lon := 47.5, lat := -18.9 }]
        [{ lat := -19.5, lon := 47.25, track_probability := 1, threat_level := "TS" }] 500
      = [WHO.convergence_for 100
          { disease := "Cholera", location := "Antananarivo", severity := "high",
            cases := 156, lon := 47.5, lat := -18.9 }
          { lat := -19.5, lon := 47.25, track_probability := 1, threat_level := "TS" }] ∧
    (WHO.convergence_for 100
        { disease := "Cholera", location := "Antananarivo", severity := "high",
          cases := 156, lon := 47.5, lat := -18.9 }
        { lat := -19.5, lon := 47.25, track_probability := 1, threat_level := "TS" }).risk_score
      = WHO.round3 (claimC2_risk "high" 156 1 100) := by
  have h := claimC2_amended (fun _ _ => 100)
    { disease := "Cholera", location := "Antananarivo", severity := "high",
      cases := 156, lon := 47.5, lat := -18.9 }
    { lat := -19.5, lon := 47.25, track_probability := 1, threat_level := "TS" }
    (by norm_num)
  exact ⟨h.1, h.2.1⟩

/-- C9, counterexample: a provider polygon of computed area 0.05 km² — below
the claimed 0.1 km² threshold — is retained in the aggregated result, and
the configured minimum (min_area_km2 = 1.0) is not 0.1 anyway: detect_floods
applies no area filter at all. -/
theorem claimC9_counterexample :
    ({ area_km2 := 1/20, severity := "minor", source := "Sentinel-1 SAR" } : Flood.FloodFeature)
      ∈ (Flood.detect_floods true
          [{ area_km2 := 1/20, severity := "minor", source := "provider" }]
          true []).features ∧
    (1 : ℚ)/20 < 1/10 ∧
    Flood.min_area_km2 ≠ 1/10 := by
  refine ⟨?_, by norm_num, by norm_num [Flood.min_area_km2]⟩
  simp [Flood.detect_floods]

/-- C9 amended: detect_floods retains every provider polygon regardless of
computed area — the output feature count equals the provider feature count
for each available source, and every aggregated feature carries the area of
some provider feature unchanged; the configured min_area_km2 (default 1.0,
not 0.1) is never consulted. -/
theorem claimC9_amended (sar_ok viirs_ok : Bool)
    (sar_features viirs_features : List Flood.FloodFeature) :
    (Flood.detect_floods sar_ok sar_features viirs_ok viirs_features).features.length
      = (if sar_ok then sar_features.length else 0)
        + (if viirs_ok then viirs_features.length else 0) ∧
    (∀ f ∈ (Flood.detect_floods sar_ok sar_features viirs_ok viirs_features).features,
      ∃ g ∈ sar_features ++ viirs_features, f.area_km2 = g.area_km2) ∧
    Flood.min_area_km2 = 1 := by
  refine ⟨?_, ?_, rfl⟩
  · cases sar_ok <;> cases viirs_ok <;> simp [Flood.detect_floods]
  · intro f hf
    replace hf : f ∈
        (if sar_ok then
          sar_features.map (fun f => { f with source := "Sentinel-1 SAR" }) else [])
        ++ (if viirs_ok then
          viirs_features.map (fun f => { f with source := "VIIRS NRT" }) else []) := hf
    rw [List.mem_append] at hf
    rcases hf with hf | hf
    · by_cases hs : sar_ok = true
      · rw [if_pos hs] at hf
        obtain ⟨g, hg, rfl⟩ := List.mem_map.mp hf
        exact ⟨g, List.mem_append.mpr (Or.inl hg), rfl⟩
      · rw [if_neg hs] at hf
        exact absurd hf (List.not_mem_nil f)
    · by_cases hv : viirs_ok = true
      · rw [if_pos hv] at hf
        obtain ⟨g, hg, rfl⟩ := List.mem_map.mp hf
        exact ⟨g, List.mem_append.mpr (Or.inr hg), rfl⟩
      · rw [if_neg hv] at hf
        exact absurd hf (List.not_mem_nil f)

/-- C9 amended, witness: one sub-threshold SAR polygon, no VIIRS features. -/
theorem claimC9_amended_witness :
    (Flood.detect_floods true
        [{ area_km2 := 1/20, severity := "minor", source := "provider" }]
        true []).features.length = 1 ∧
    Flood.min_area_km2 = 1 := by
  have h := claimC9_amended true true
    [{ area_km2 := 1/20, severity := "minor", source := "provider" }] []
  exact ⟨by simpa using h.1, h.2.2⟩

/-- C7: every run_once invocation appends exactly one monitor_runs row; the
row is the success row (with counts and duration) when no step of the cycle
raises, and the error row carrying the raised message (with zero counts and
NULL duration) when one does. -/
theorem claimC7 (env : Monitor.CycleEnv) (db : Monitor.MonitorDB) :
    (Monitor.run_once env db).monitor_runs.length = db.monitor_runs.length + 1 ∧
    (Monitor.cycle_raises env = false →
      (Monitor.run_once env db).monitor_runs
        = db.monitor_runs ++ [Monitor.success_row env]) ∧
    (∀ k msg, env.persist_failure = some (k, msg) → Monitor.cycle_raises env = true →
      (Monitor.run_once env db).monitor_runs
        = db.monitor_runs ++ [Monitor.error_row env msg]) := by
  rcases hpf : env.persist_failure with - | ⟨k, msg⟩
  · refine ⟨?_, ?_, ?_⟩
    · simp [Monitor.run_once, hpf]
    · intro
      simp [Monitor.run_once, hpf, Monitor.success_row]
    · intro k msg heq _
      cases heq
  · by_cases hk : k < (Monitor.cycle_detections env).length
    · refine ⟨?_, ?_, ?_⟩
      · simp [Monitor.run_once, hpf, hk]
      · intro hcr
        rw [Monitor.cycle_raises, hpf] at hcr
        simp [hk] at hcr
      · intro k' msg' heq _
        injection heq with heq
        injection heq with hk2 hmsg2
        subst hk2
        subst hmsg2
        simp [Monitor.run_once, hpf, hk, Monitor.error_row]
    · refine ⟨?_, ?_, ?_⟩
      · simp [Monitor.run_once, hpf, hk]
      · intro
        simp [Monitor.run_once, hpf, hk, Monitor.success_row]
      · intro k' msg' heq hcr
        injection heq with heq
        injection heq with hk2 hmsg2
        subst hk2
        rw [Monitor.cycle_raises, hpf] at hcr
        simp [hk] at hcr

/-- C7, witness: a raising cycle (failure right before persisting the first
of one detection) logs exactly the error row. -/
theorem claimC7_witness :
    (Monitor.run_once
        { run_time := 0, duration := 1,
          fnv3_detections := [{ lat := 0, lon := 0, confidence := 1, source := "fnv3", threat_level := "TS" }],
          era5_detections := [], persist_failure := some (0, "boom") }
        { detections := [], alerts_logged := 0, monitor_runs := [] }).monitor_runs.length
      = 0 + 1 ∧
    (Monitor.run_once
        { run_time := 0, duration := 1,
          fnv3_detections := [{ lat := 0, lon := 0, confidence := 1, source := "fnv3", threat_level := "TS" }],
          era5_detections := [], persist_failure := some (0, "boom") }
        { detections := [], alerts_logged := 0, monitor_runs := [] }).monitor_runs
      = [] ++ [Monitor.error_row
          { run_time := 0, duration := 1,
            fnv3_detections := [{ lat := 0, lon := 0, confidence := 1, source := "fnv3", threat_level := "TS" }],
            era5_detections := [], persist_failure := some (0, "boom") } "boom"] := by
  have h := claimC7
    { run_time := 0, duration := 1,
      fnv3_detections := [{ lat := 0, lon := 0, confidence := 1, source := "fnv3", threat_level := "TS" }],
      era5_detections := [], persist_failure := some (0, "boom") }
    { detections := [], alerts_logged := 0, monitor_runs := [] }
  exact ⟨h.1, h.2.2 0 "boom" rfl rfl⟩

/-- C8: each log_tracking_open call inserts exactly one tracking_opens row;
the first call for a tracking id sets opened_at on every matching unopened
alert row, and a second call leaves the sent_alerts table entirely unchanged
(the update is guarded by opened_at IS NULL, so it is idempotent in
opened_at). -/
theorem claimC8 (db : Guerrilla.AlertDB) (tid : String) (t1 t2 : ℚ)
    (ip1 ua1 ip2 ua2 : Option String) :
    (Guerrilla.log_tracking_open db tid t1 ip1 ua1).tracking_opens.length
      = db.tracking_opens.length + 1 ∧
    (Guerrilla.log_tracking_open (Guerrilla.log_tracking_open db tid t1 ip1 ua1)
        tid t2 ip2 ua2).tracking_opens.length
      = db.tracking_opens.length + 2 ∧
    (Guerrilla.log_tracking_open (Guerrilla.log_tracking_open db tid t1 ip1 ua1)
        tid t2 ip2 ua2).sent_alerts
      = (Guerrilla.log_tracking_open db tid t1 ip1 ua1).sent_alerts ∧
    (∀ r ∈ db.sent_alerts, r.tracking_pixel_id = tid → r.opened_at = none →
      ({ r with opened_at := some t1 } : Guerrilla.SentAlertRow)
        ∈ (Guerrilla.log_tracking_open db tid t1 ip1 ua1).sent_alerts) := by
  refine ⟨by simp [Guerrilla.log_tracking_open],
    by simp [Guerrilla.log_tracking_open], ?_, ?_⟩
  · simp only [Guerrilla.log_tracking_open, List.map_map]
    apply List.map_congr_left
    intro r _
    by_cases hcond : r.tracking_pixel_id = tid ∧ r.opened_at = none
    · simp only [Function.comp_apply, if_pos hcond]
      rw [if_neg]
      rintro ⟨-, h⟩
      cases h
    · simp only [Function.comp_apply, if_neg hcond, if_neg hcond]
  · intro r hr h1 h2
    simp only [Guerrilla.log_tracking_open]
    exact List.mem_map.mpr ⟨r, hr, by rw [if_pos ⟨h1, h2⟩]⟩

/-- C8, witness: one unopened alert row with token tok, opened at t=1 and
again at t=2. -/
theorem claimC8_witness :
    (Guerrilla.log_tracking_open (Guerrilla.log_tracking_open
        { sent_alerts := [{ alert_id := "a", hazard_type := "cyclone", hazard_id := "h", country := "mozambique", recipients := [], subject := "s", sent_at := 0, tracking_pixel_id := "tok", opened_at := none, validated := false }], tracking_opens := [] }
        "tok" 1 none none) "tok" 2 none none).sent_alerts
      = (Guerrilla.log_tracking_open
        { sent_alerts := [{ alert_id := "a", hazard_type := "cyclone", hazard_id := "h", country := "mozambique", recipients := [], subject := "s", sent_at := 0, tracking_pixel_id := "tok", opened_at := none, validated := false }], tracking_opens := [] }
        "tok" 1 none none).sent_alerts ∧
    ({ alert_id := "a", hazard_type := "cyclone", hazard_id := "h",
       country := "mozambique", recipients := [], subject := "s", sent_at := 0,
       tracking_pixel_id := "tok", opened_at := some 1, validated := false }
        : Guerrilla.SentAlertRow)
      ∈ (Guerrilla.log_tracking_open
        { sent_alerts := [{ alert_id := "a", hazard_type := "cyclone", hazard_id := "h", country := "mozambique", recipients := [], subject := "s", sent_at := 0, tracking_pixel_id := "tok", opened_at := none, validated := false }], tracking_opens := [] }
        "tok" 1 none none).sent_alerts := by
  have h := claimC8
    { sent_alerts := [{ alert_id := "a", hazard_type := "cyclone", hazard_id := "h", country := "mozambique", recipients := [], subject := "s", sent_at := 0, tracking_pixel_id := "tok", opened_at := none, validated := false }], tracking_opens := [] }
    "tok" 1 2 none none none none
  exact ⟨h.2.2.1, h.2.2.2
    { alert_id := "a", hazard_type := "cyclone", hazard_id := "h",
      country := "mozambique", recipients := [], subject := "s", sent_at := 0,
      tracking_pixel_id := "tok", opened_at := none, validated := false }
    (by simp) rfl rfl⟩

/-- C1, counterexample: two send_hazard_alert invocations for the same
hazard id test_001 and country mozambique, one hour apart (well inside the
claimed 6-hour window), each insert one sent_alerts row for the pair — the
second inserts one new row, not zero.  send_hazard_alert never consults
previously sent alerts. -/
theorem claimC1_counterexample :
    Guerrilla.count_pair
        ((Guerrilla.send_hazard_alert (test_env_at 0 "a") empty_db test_hazard
          ["mozambique"]).db) "test_001" "mozambique" = 1 ∧
    Guerrilla.count_pair
        ((Guerrilla.send_hazard_alert (test_env_at 1 "b")
          (Guerrilla.send_hazard_alert (test_env_at 0 "a") empty_db test_hazard
            ["mozambique"]).db
          test_hazard ["mozambique"]).db) "test_001" "mozambique" = 2 ∧
    (1 : ℚ) - 0 < 6 := by
  refine ⟨rfl, rfl, by norm_num⟩

/-- C1 amended: send_hazard_alert applies no deduplication window at all —
every invocation for a recognized country and a known hazard type inserts
exactly one new sent_alerts row for (hazard_id, country), whatever rows
(and timestamps) the database already holds. -/
theorem claimC1_amended (env : Guerrilla.SendEnv) (db : Guerrilla.AlertDB)
    (hazard : Guerrilla.Hazard) (c : String)
    (hrec : (Guerrilla.recipient_emails c).isSome = true)
    (htype : hazard.type = "cyclone" ∨ hazard.type = "flood") :
    Guerrilla.count_pair ((Guerrilla.send_hazard_alert env db hazard [c]).db) hazard.id c
      = Guerrilla.count_pair db hazard.id c + 1 := by
  obtain ⟨⟨display, emails⟩, hpr⟩ := Option.isSome_iff_exists.mp hrec
  unfold Guerrilla.send_hazard_alert
  rw [if_neg (by simp)]
  unfold Guerrilla.send_loop
  rw [hpr]
  simp only [if_pos htype]
  unfold Guerrilla.send_loop
  simp only [Guerrilla.log_sent_alert, Guerrilla.count_pair, List.filter_append,
    List.length_append]
  simp

/-- C1 amended, witness: sending to mozambique on an empty database inserts
one row for (test_001, mozambique). -/
theorem claimC1_amended_witness :
    Guerrilla.count_pair
        ((Guerrilla.send_hazard_alert (test_env_at 0 "a") empty_db test_hazard
          ["mozambique"]).db) test_hazard.id "mozambique"
      = Guerrilla.count_pair empty_db test_hazard.id "mozambique" + 1 := by
  exact claimC1_amended (test_env_at 0 "a") empty_db test_hazard "mozambique"
    rfl (Or.inl rfl)

/-- C10, code bug: for a dispatched cyclone alert the token embedded in the
email body and pixel URL is md5_16(hazard_id, country, dispatch utcnow),
while log_sent_alert independently stores tracking_pixel_id =
md5_16(fresh alert_id, insertion utcnow).  Whenever these two digests differ
(md5 collisions aside, they always do — the preimages differ), a later
log_tracking_open with the emailed token matches no sent_alerts row, so the
alert's opened_at stays NULL: the open-tracking pipeline — promised by the
module header and the tracking_opens foreign key onto
sent_alerts(tracking_pixel_id) — cannot link opens back to alerts. -/
theorem claimC10_bug (env : Guerrilla.SendEnv) (hazard : Guerrilla.Hazard)
    (c display : String) (emails : List String) (t3 : ℚ)
    (hc : Guerrilla.recipient_emails c = some (display, emails))
    (htype : hazard.type = "cyclone")
    (hne : env.md5_16 (hazard.id ++ "_" ++ c ++ "_" ++ toString (env.t_email 0))
         ≠ env.md5_16 (env.fresh_ids 0 ++ "_" ++ toString (env.t_insert 0))) :
    (Guerrilla.send_hazard_alert env empty_db hazard [c]).emails.map
        Guerrilla.SentEmail.pixel_token
      = [env.md5_16 (hazard.id ++ "_" ++ c ++ "_" ++ toString (env.t_email 0))] ∧
    (Guerrilla.send_hazard_alert env empty_db hazard [c]).db.sent_alerts.map
        Guerrilla.SentAlertRow.tracking_pixel_id
      = [env.md5_16 (env.fresh_ids 0 ++ "_" ++ toString (env.t_insert 0))] ∧
    (Guerrilla.log_tracking_open (Guerrilla.send_hazard_alert env empty_db hazard [c]).db
        (env.md5_16 (hazard.id ++ "_" ++ c ++ "_" ++ toString (env.t_email 0)))
        t3 none none).sent_alerts.map Guerrilla.SentAlertRow.opened_at
      = [none] := by
  have hts : (hazard.type = "cyclone" ∨ hazard.type = "flood") := Or.inl htype
  unfold Guerrilla.send_hazard_alert
  rw [if_neg (by simp)]
  unfold Guerrilla.send_loop
  rw [hc]
  simp only [if_pos hts, if_pos htype]
  unfold Guerrilla.send_loop
  refine ⟨rfl, ?_, ?_⟩
  · simp [Guerrilla.log_sent_alert, empty_db]
  · simp only [Guerrilla.log_sent_alert, empty_db, Guerrilla.log_tracking_open,
      List.nil_append, List.map_cons, List.map_nil]
    rw [if_neg]
    rintro ⟨habs, -⟩
    exact hne habs.symm

/-- C10, witness: concrete dispatch of the test hazard to mozambique with
the identity digest stand-in; the emailed token test_001_mozambique_0 and
the stored token ab12ef34cd560_0 differ, and the recorded open leaves the
row unopened. -/
theorem claimC10_bug_witness :
    (Guerrilla.log_tracking_open
        (Guerrilla.send_hazard_alert (test_env_at 0 "ab12ef34cd56") empty_db
          test_hazard ["mozambique"]).db
        ((test_env_at 0 "ab12ef34cd56").md5_16
          (test_hazard.id ++ "_" ++ "mozambique" ++ "_"
            ++ toString ((test_env_at 0 "ab12ef34cd56").t_email 0)))
        2 none none).sent_alerts.map Guerrilla.SentAlertRow.opened_at
      = [none] := by
  exact (claimC10_bug (test_env_at 0 "ab12ef34cd56") test_hazard "mozambique"
    "Mozambique" ["geral@inam.gov.mz", "info@ingd.gov.mz", "wrmozambique@who.int"]
    2 rfl rfl (by decide)).2.2

/-- The source slope-factor chain agrees with the claim's band table. -/
theorem slope_factor_eq_claim (slope : ℚ) :
    Landslide.slope_factor slope = claimC6_slope_factor slope := by
  unfold Landslide.slope_factor claimC6_slope_factor Landslide.slope_low
    Landslide.slope_medium Landslide.slope_high Landslide.slope_extreme
  rcases lt_or_le slope 10 with h1 | h1
  · rw [if_neg (not_le.mpr (by linarith)), if_neg (not_le.mpr (by linarith)),
      if_neg (not_le.mpr (by linarith)), if_neg (not_le.mpr h1), if_pos h1]
  · rw [if_neg (not_lt.mpr h1)]
    rcases lt_or_le slope 15 with h2 | h2
    · rw [if_neg (not_le.mpr (by linarith)), if_neg (not_le.mpr (by linarith)),
        if_neg (not_le.mpr h2), if_pos h1, if_pos h2]
    · rw [if_neg (not_lt.mpr h2)]
      rcases lt_or_le slope 25 with h3 | h3
      · rw [if_neg (not_le.mpr (by linarith)), if_neg (not_le.mpr h3),
          if_pos h2, if_pos h3]
      · rw [if_neg (not_lt.mpr h3)]
        rcases lt_or_le slope 35 with h4 | h4
        · rw [if_neg (not_le.mpr h4), if_pos h3, if_pos h4]
        · rw [if_neg (not_lt.mpr h4), if_pos h4]

/-- The source rainfall-factor chain agrees with the claim's band table. -/
theorem rain_factor_eq_claim (rainfall : ℚ) :
    Landslide.rain_factor rainfall = claimC6_rain_factor rainfall := by
  unfold Landslide.rain_factor claimC6_rain_factor Landslide.rainfall_low
    Landslide.rainfall_medium Landslide.rainfall_high Landslide.rainfall_extreme
  rcases lt_or_le rainfall 50 with h1 | h1
  · rw [if_neg (not_le.mpr (by linarith)), if_neg (not_le.mpr (by linarith)),
      if_neg (not_le.mpr (by linarith)), if_neg (not_le.mpr h1), if_pos h1]
  · rw [if_neg (not_lt.mpr h1)]
    rcases lt_or_le rainfall 100 with h2 | h2
    · rw [if_neg (not_le.mpr (by linarith)), if_neg (not_le.mpr (by linarith)),
        if_neg (not_le.mpr h2), if_pos h1, if_pos h2]
    · rw [if_neg (not_lt.mpr h2)]
      rcases lt_or_le rainfall 200 with h3 | h3
      · rw [if_neg (not_le.mpr (by linarith)), if_neg (not_le.mpr h3),
          if_pos h2, if_pos h3]
      · rw [if_neg (not_lt.mpr h3)]
        rcases lt_or_le rainfall 400 with h4 | h4
        · rw [if_neg (not_le.mpr h4), if_pos h3, if_pos h4]
        · rw [if_neg (not_lt.mpr h4), if_pos h4]

/-- The source level classifier agrees with the claim's level bands. -/
theorem classify_eq_claim (x : ℝ) :
    Landslide.classify_score x = claimC6_classify x := by
  unfold Landslide.classify_score claimC6_classify
  rcases le_or_lt 0.8 x with h1 | h1
  · rw [if_pos h1, if_pos h1]
  · rw [if_neg (not_le.mpr h1), if_neg (not_le.mpr h1)]
    rcases le_or_lt 0.5 x with h2 | h2
    · have hp : (0.5 : ℝ) ≤ x ∧ x < 0.8 := ⟨h2, h1⟩
      rw [if_pos h2, if_pos hp]
    · have hn : ¬((0.5 : ℝ) ≤ x ∧ x < 0.8) := fun hc => absurd hc.1 (not_le.mpr h2)
      rw [if_neg (not_le.mpr h2), if_neg hn]
      rcases le_or_lt 0.3 x with h3 | h3
      · have hp : (0.3 : ℝ) ≤ x ∧ x < 0.5 := ⟨h3, h2⟩
        rw [if_pos h3, if_pos hp]
      · have hn3 : ¬((0.3 : ℝ) ≤ x ∧ x < 0.5) := fun hc => absurd hc.1 (not_le.mpr h3)
        rw [if_neg (not_le.mpr h3), if_neg hn3]
        rcases le_or_lt 0.1 x with h4 | h4
        · have hp : (0.1 : ℝ) ≤ x ∧ x < 0.3 := ⟨h4, h3⟩
          rw [if_pos h4, if_pos hp]
        · have hn4 : ¬((0.1 : ℝ) ≤ x ∧ x < 0.3) := fun hc => absurd hc.1 (not_le.mpr h4)
          rw [if_neg (not_le.mpr h4), if_neg hn4]

/-- C6, counterexample: at slope 10° and rain 100 mm the factors are 0.2 and
0.5, so the claimed returned score is sqrt(0.1) — but the source returns
round(sqrt(0.1), 3) = 0.316, which is not sqrt(0.1) (0.316² = 0.099856):
the returned score is the 3-decimal rounding of the square root, not the
square root itself. -/
theorem claimC6_counterexample :
    (Landslide.calculate_cell_risk 10 100).2
      ≠ Real.sqrt (((claimC6_slope_factor 10 * claimC6_rain_factor 100 : ℚ) : ℝ)) := by
  have hq : (Landslide.slope_factor 10 * Landslide.rain_factor 100 : ℚ) = 1/10 := by
    norm_num [Landslide.slope_factor, Landslide.rain_factor, Landslide.slope_low,
      Landslide.slope_medium, Landslide.slope_high, Landslide.slope_extreme,
      Landslide.rainfall_low, Landslide.rainfall_medium, Landslide.rainfall_high,
      Landslide.rainfall_extreme]
  have hq' : (claimC6_slope_factor 10 * claimC6_rain_factor 100 : ℚ) = 1/10 := by
    norm_num [claimC6_slope_factor, claimC6_rain_factor]
  unfold Landslide.calculate_cell_risk Landslide.cell_score
  rw [hq, hq']
  have hcast : (((1 : ℚ)/10 : ℚ) : ℝ) = (1/10 : ℝ) := by push_cast; ring
  rw [hcast]
  have hs0 : 0 ≤ Real.sqrt (1/10 : ℝ) := Real.sqrt_nonneg _
  have hs2 : Real.sqrt (1/10 : ℝ) ^ 2 = 1/10 := Real.sq_sqrt (by norm_num)
  have hlb : (0.3155 : ℝ) ≤ Real.sqrt (1/10 : ℝ) := by nlinarith [hs2, hs0]
  have hub : Real.sqrt (1/10 : ℝ) < 0.3165 := by nlinarith [hs2, hs0]
  have hfloor : Int.floor (Real.sqrt (1/10 : ℝ) * 1000 + 1/2) = 316 := by
    rw [Int.floor_eq_iff]
    constructor
    · push_cast
      nlinarith
    · push_cast
      nlinarith
  unfold Landslide.round3R
  rw [hfloor]
  intro heq
  have hs : Real.sqrt (1/10 : ℝ) = 316/1000 := by
    rw [← heq]
    norm_num
  rw [hs] at hs2
  norm_num at hs2

/-- C6 amended: the factor tables and the level bands are exactly as the
claim states them, the level is classified from the exact
sqrt(slope_factor × rain_factor), but the RETURNED score is that square
root rounded to 3 decimal places; the claim's highlighted boundary instance
(slope 15°, rain 100 mm → score 0.5, level HIGH) holds exactly because 0.5
is a 3-decimal fixed point. -/
theorem claimC6_amended (slope rainfall : ℚ) :
    Landslide.slope_factor slope = claimC6_slope_factor slope ∧
    Landslide.rain_factor rainfall = claimC6_rain_factor rainfall ∧
    Landslide.calculate_cell_risk slope rainfall
      = (claimC6_classify (Landslide.cell_score slope rainfall),
         Landslide.round3R (Landslide.cell_score slope rainfall)) ∧
    Landslide.calculate_cell_risk 15 100 = ("HIGH", (1/2 : ℝ)) := by
  refine ⟨slope_factor_eq_claim slope, rain_factor_eq_claim rainfall, ?_, ?_⟩
  · unfold Landslide.calculate_cell_risk
    rw [classify_eq_claim]
  · have hq : (Landslide.slope_factor 15 * Landslide.rain_factor 100 : ℚ) = 1/4 := by
      norm_num [Landslide.slope_factor, Landslide.rain_factor, Landslide.slope_low,
        Landslide.slope_medium, Landslide.slope_high, Landslide.slope_extreme,
        Landslide.rainfall_low, Landslide.rainfall_medium, Landslide.rainfall_high,
        Landslide.rainfall_extreme]
    have hcs : Landslide.cell_score 15 100 = (1/2 : ℝ) := by
      unfold Landslide.cell_score
      rw [hq]
      rw [show (((1 : ℚ)/4 : ℚ) : ℝ) = ((1/2 : ℝ))^2 by push_cast; ring]
      exact Real.sqrt_sq (by norm_num)
    unfold Landslide.calculate_cell_risk
    rw [hcs]
    have h1 : Landslide.classify_score (1/2 : ℝ) = "HIGH" := by
      unfold Landslide.classify_score
      rw [if_neg (by norm_num), if_pos (by norm_num)]
    have h2 : Landslide.round3R (1/2 : ℝ) = (1/2 : ℝ) := by
      unfold Landslide.round3R
      rw [show ((1 : ℝ)/2 * 1000 + 1/2) = (1001/2 : ℝ) by norm_num]
      rw [show Int.floor ((1001/2 : ℝ)) = 500 by
        rw [Int.floor_eq_iff]
        norm_num]
      norm_num
    rw [h1, h2]
